import Mathlib

/-!
Shallow embedding of the IDArling synchronization core:
  - `src/idarling/core/core.py` (class `Core`, its nested `UIHooksCore` /
    `IDBHooksCore` hooks, and the netnode persistence helpers), and
  - `src/plugin/idaconnect/core.py` (the `IDPHooks` / `IDBHooks` event
    translation callbacks).

Python specifics are modelled explicitly:
  - a Python attribute that may be `None` becomes `Option String`;
  - Python truthiness of such a value (`if self._project:`) is `truthyS`;
  - `x or None` / `x or "0"` are `pyOrNone` / `pyOrStr`;
  - `str(i)` and `int(s)` on naturals are `pyStr` / `pyInt`;
  - `assert ".." not in v` raises `AssertionError` when `v` is a string
    containing `".."`, and `TypeError` when `v` is `None` (membership test
    on `None` is a `TypeError` in Python); a raised error aborts the rest
    of the enclosing handler, so partial state updates made before the
    raise are kept.
-/

namespace IDArling

/-- Python errors that the modelled code can raise. -/
inductive PyErr where
  | assertionError
  | typeError
  | valueError
  deriving Repr, DecidableEq

/-- Truthiness of a Python string-or-None value: `None` and `""` are falsy. -/
def truthyS : Option String → Bool
  | none => false
  | some s => s ≠ ""

/-- Python `x or None` for a string-or-None `x`. -/
def pyOrNone (x : Option String) : Option String :=
  if truthyS x then x else none

/-- Python `x or d` for a string-or-None `x` and a string default `d`. -/
def pyOrStr (x : Option String) (d : String) : String :=
  match x with
  | none => d
  | some s => if s = "" then d else s

/-- The decimal digit character for `d` (meaningful for `d < 10`). -/
def digitChr (d : Nat) : Char := Char.ofNat (48 + d)

/-- Python `str(n)` for a natural `n`: its decimal representation. -/
def pyStr (n : Nat) : String :=
  if n = 0 then "0" else ⟨((Nat.digits 10 n).map digitChr).reverse⟩

/-- Python `int(s)` on the digit-string fragment relevant here: parses a
nonempty all-digit string as a natural, raising `ValueError` (modelled as
`none`) otherwise. -/
def pyInt (s : String) : Option Nat :=
  if s.data ≠ [] ∧ s.data.all Char.isDigit then
    some (s.data.foldl (fun n c => 10 * n + (c.toNat - 48)) 0)
  else none

/-- Python substring test `pat in s` on lists of characters. -/
def isSubList (pat : List Char) : List Char → Bool
  | [] => pat.isEmpty
  | c :: cs => pat.isPrefixOf (c :: cs) || isSubList pat cs

/-- Python `".." in s`. -/
def containsDotDot (s : String) : Bool :=
  isSubList (String.data "..") s.data

/-- The idarling netnode (`$ idarling`): the durable per-document key/value
store with the three string-valued keys `project`, `database`, `tick`.
`none` models an absent key (`hashval` returns `None`). -/
structure Netnode where
  project : Option String
  database : Option String
  tick : Option String
  deriving Repr, DecidableEq

/-- The mutable fields of `Core` that the claims are about: `_project`,
`_database`, `_tick` and the `_hooked` flag of `hook_all` / `unhook_all`. -/
structure CoreState where
  project : Option String
  database : Option String
  tick : Nat
  hooked : Bool
  deriving Repr, DecidableEq

/-- `Core.__init__`: all identity fields unset, fine-grained hooks unhooked. -/
def initCore : CoreState :=
  { project := none, database := none, tick := 0, hooked := false }

/-- External inputs read inside `join_session` / `leave_session`: the user
config (`name`, `color`) and the current screen address (`get_screen_ea`). -/
structure Env where
  name : String
  color : Nat
  ea : Nat
  deriving Repr, DecidableEq

/-- Packets given to `network.send_packet`, in the shapes built by `core.py`
(`ListDatabases.Query`, `JoinSession`, `LeaveSession`). -/
inductive Packet where
  | listDatabasesQuery (project : Option String)
  | joinSession (project database : Option String) (tick : Nat)
      (name : String) (color : Nat) (ea : Nat)
  | leaveSession (name : String)
  deriving Repr, DecidableEq

/-- `Core.hook_all`: no-op when already hooked, else hooks every user-event
hook and sets `_hooked`. -/
def hook_all (st : CoreState) : CoreState :=
  if st.hooked then st else { st with hooked := true }

/-- `Core.unhook_all`: no-op when already unhooked, else unhooks every
user-event hook and clears `_hooked`. -/
def unhook_all (st : CoreState) : CoreState :=
  if !st.hooked then st else { st with hooked := false }

/-- `Core.save_netnode`: writes `str(field)` under each key whose field is
truthy; falsy fields (`None`, `""`, `0`) are skipped, leaving whatever the
store already holds for that key. -/
def save_netnode (st : CoreState) (node : Netnode) : Netnode :=
  let node := if truthyS st.project then
    { node with project := st.project } else node
  let node := if truthyS st.database then
    { node with database := st.database } else node
  if st.tick ≠ 0 then { node with tick := some (pyStr st.tick) } else node

/-- `Core.load_netnode`: reads the three keys into the in-memory fields.
Each of `_project` and `_database` is set to `hashval(key) or None` and then
checked by `assert ".." not in field`: the assert raises `AssertionError`
when the field is a string containing `".."`, and `TypeError` when the
field is `None`. A raise aborts the method, keeping the assignments already
made. `_tick` is `int(hashval("tick") or "0")`. -/
def load_netnode (st : CoreState) (node : Netnode) : CoreState × Option PyErr :=
  let st := { st with project := pyOrNone node.project }
  match st.project with
  | none => (st, some PyErr.typeError)
  | some p =>
    if containsDotDot p then (st, some PyErr.assertionError)
    else
      let st := { st with database := pyOrNone node.database }
      match st.database with
      | none => (st, some PyErr.typeError)
      | some d =>
        if containsDotDot d then (st, some PyErr.assertionError)
        else
          match pyInt (pyOrStr node.tick "0") with
          | none => (st, some PyErr.valueError)
          | some t => ({ st with tick := t }, none)

/-- The `project` property setter: assigns `_project`, then runs
`assert ".." not in self._project` (raising on `None` or a `".."` value,
with the assignment kept), then `save_netnode`. -/
def set_project (st : CoreState) (node : Netnode) (v : Option String) :
    CoreState × Netnode × Except PyErr Unit :=
  let st := { st with project := v }
  match v with
  | none => (st, node, Except.error PyErr.typeError)
  | some s =>
    if containsDotDot s then (st, node, Except.error PyErr.assertionError)
    else (st, save_netnode st node, Except.ok ())

/-- The `database` property setter, symmetric to the `project` setter. -/
def set_database (st : CoreState) (node : Netnode) (v : Option String) :
    CoreState × Netnode × Except PyErr Unit :=
  let st := { st with database := v }
  match v with
  | none => (st, node, Except.error PyErr.typeError)
  | some s =>
    if containsDotDot s then (st, node, Except.error PyErr.assertionError)
    else (st, save_netnode st node, Except.ok ())

/-- `Core.join_session`: when `_project` and `_database` are both truthy,
sends `ListDatabases.Query(project)`; `accepted` models the truthiness of
the returned deferred (`if d:`), which decides whether the
`databases_listed` callback gets registered. Returns the packets sent and
whether a reply callback is now pending. -/
def join_session (st : CoreState) (accepted : Bool) : List Packet × Bool :=
  if truthyS st.project && truthyS st.database then
    ([Packet.listDatabasesQuery st.project], accepted)
  else ([], false)

/-- The `databases_listed` reply callback inside `Core.join_session`: if some
listed database name equals `_database`, sends
`JoinSession(project, database, tick, name, color, ea)` and calls
`hook_all`; otherwise returns without further effect. A `None` `_database`
never equals a reply name. -/
def databases_listed (env : Env) (reply : List String) (st : CoreState) :
    CoreState × List Packet :=
  match st.database with
  | none => (st, [])
  | some d =>
    if reply.contains d then
      (hook_all st,
       [Packet.joinSession st.project st.database st.tick env.name env.color env.ea])
    else (st, [])

/-- `Core.leave_session`: when `_project` and `_database` are both truthy,
sends `LeaveSession(name)` and calls `unhook_all`; otherwise does nothing. -/
def leave_session (env : Env) (st : CoreState) : CoreState × List Packet :=
  if truthyS st.project && truthyS st.database then
    (unhook_all st, [Packet.leaveSession env.name])
  else (st, [])

/-- `IDBHooksCore.closebase`: runs `leave_session`, `save_netnode`, then
`core.project = None`. That setter assigns `_project := None` and then its
assert raises `TypeError` (membership test on `None`), so the method aborts
there: `core.database = None` and the `core.ticks = 0` line (itself a typo
for the `tick` property) never execute, and no further save happens.
Returns the post state, post store, packets sent, and the raised error. -/
def closebase (env : Env) (st : CoreState) (node : Netnode) :
    CoreState × Netnode × List Packet × Option PyErr :=
  let p := leave_session env st
  let node := save_netnode p.1 node
  ({ p.1 with project := none }, node, p.2, some PyErr.typeError)

/-- System state for the document lifecycle: the `Core` fields, the durable
netnode, whether a `ListDatabases` reply callback is outstanding, and the
spec-level SessionProtocol ghost flag `joined` (Joined exactly from the
dispatch of a `JoinSession` request until the dispatch of a `LeaveSession`
request). -/
structure SysState where
  core : CoreState
  node : Netnode
  pending : Bool
  joined : Bool
  deriving Repr, DecidableEq

/-- Initial system state for a document whose store holds `node` (the store
pre-exists the plugin; a fresh document has all keys absent). -/
def initSys (node : Netnode) : SysState :=
  { core := initCore, node := node, pending := false, joined := false }

/-- `UIHooksCore.ready_to_run`: `load_netnode` then `join_session`. If
loading raises, the rest of the handler (including `join_session`) is
skipped. Returns the new state and the packets sent. -/
def applyReady (accepted : Bool) (s : SysState) : SysState × List Packet :=
  let l := load_netnode s.core s.node
  match l.2 with
  | some _ => ({ s with core := l.1 }, [])
  | none =>
    let j := join_session l.1 accepted
    ({ s with core := l.1, pending := s.pending || j.2 }, j.1)

/-- Delivery of a `ListDatabases` reply to the registered `databases_listed`
callback. The ghost `joined` flag is set exactly when the callback
dispatches a `JoinSession` packet. -/
def applyReply (env : Env) (reply : List String) (s : SysState) :
    SysState × List Packet :=
  let r := databases_listed env reply s.core
  ({ s with
      core := r.1
      pending := false
      joined := s.joined || !r.2.isEmpty }, r.2)

/-- `IDBHooksCore.closebase` at system level. The ghost `joined` flag is
cleared exactly when `leave_session` dispatches a `LeaveSession` packet. -/
def applyClose (env : Env) (s : SysState) : SysState × List Packet × Option PyErr :=
  let c := closebase env s.core s.node
  ({ s with
      core := c.1
      node := c.2.1
      joined := if c.2.2.1.isEmpty then s.joined else false },
   c.2.2.1, c.2.2.2)

/-- Reachable system states: from any initial store, under the host-driven
events ready-to-run (with either deferred truthiness), reply delivery of
any database list while a callback is outstanding, and document close. -/
inductive Reachable (env : Env) : SysState → Prop where
  | init (node : Netnode) : Reachable env (initSys node)
  | ready (s : SysState) (accepted : Bool) :
      Reachable env s → Reachable env (applyReady accepted s).1
  | reply (s : SysState) (names : List String) :
      Reachable env s → s.pending = true →
      Reachable env (applyReply env names s).1
  | close (s : SysState) :
      Reachable env s → Reachable env (applyClose env s).1

/-- Outbound events as constructed by the callbacks of
`src/plugin/idaconnect/core.py` (`events_idp` / `events_idb` payloads). -/
inductive OutboundEvent where
  | undefinedEvent (ea : Nat)
  | makeCodeEvent (ea : Nat)
  | makeDataEvent (ea flags tid size : Nat)
  | renamedEvent (ea : Nat) (new_name : String) (local_name : Bool)
  | funcAddedEvent (startEA endEA : Nat)
  | deletingFuncEvent (startEA : Nat)
  | setFuncStartEvent (startEA new_ea : Nat)
  | setFuncEndEvent (startEA new_ea : Nat)
  | cmtChangedEvent (ea : Nat) (repeatable_cmt : Bool) (cmt : String)
  deriving Repr, DecidableEq

/-- Host-tool notifications dispatched to the fine-grained observer
callbacks of `IDPHooks` / `IDBHooks` in `src/plugin/idaconnect/core.py`,
with the arguments each callback receives (`insn` and `func` contribute
only the fields the callbacks read). -/
inductive Notification where
  | ev_undefine (ea : Nat)
  | make_code (insn_ea : Nat)
  | make_data (ea flags tid size : Nat)
  | renamed (ea : Nat) (new_name : String) (local_name : Bool)
  | func_added (startEA endEA : Nat)
  | deleting_func (startEA : Nat)
  | set_func_start (startEA new_ea : Nat)
  | set_func_end (startEA new_ea : Nat)
  | cmt_changed (ea : Nat) (repeatable_cmt : Bool)
  deriving Repr, DecidableEq

/-- The observer callbacks of `IDPHooks` / `IDBHooks`: each builds one event
from its notification (for `cmt_changed`, after reading the comment text
back with `idc.get_cmt`, modelled by the oracle `get_cmt`), forwards it via
`_send_event`, and returns 0 to the host. Result: the list of events handed
to the transport and the value returned to the host. -/
def handleNotification (get_cmt : Nat → Bool → String) :
    Notification → List OutboundEvent × Int
  | Notification.ev_undefine ea => ([OutboundEvent.undefinedEvent ea], 0)
  | Notification.make_code insn_ea => ([OutboundEvent.makeCodeEvent insn_ea], 0)
  | Notification.make_data ea flags tid size =>
      ([OutboundEvent.makeDataEvent ea flags tid size], 0)
  | Notification.renamed ea new_name local_name =>
      ([OutboundEvent.renamedEvent ea new_name local_name], 0)
  | Notification.func_added s e => ([OutboundEvent.funcAddedEvent s e], 0)
  | Notification.deleting_func s => ([OutboundEvent.deletingFuncEvent s], 0)
  | Notification.set_func_start s ea => ([OutboundEvent.setFuncStartEvent s ea], 0)
  | Notification.set_func_end s ea => ([OutboundEvent.setFuncEndEvent s ea], 0)
  | Notification.cmt_changed ea rep =>
      ([OutboundEvent.cmtChangedEvent ea rep (get_cmt ea rep)], 0)

/-- A decimal digit character is a digit. -/
lemma digitChr_isDigit (d : Nat) (h : d < 10) : (digitChr d).isDigit = true := by
  interval_cases d <;> decide

/-- Code of a decimal digit character. -/
lemma digitChr_toNat (d : Nat) (h : d < 10) : (digitChr d).toNat = 48 + d := by
  interval_cases d <;> decide

/-- Value of the digit-parsing fold over a big-endian digit list. -/
lemma foldl_digits (m : List Nat) (hm : ∀ d ∈ m, d < 10) (acc : Nat) :
    List.foldl (fun n c => 10 * n + (c.toNat - 48)) acc (m.map digitChr) =
      acc * 10 ^ m.length + Nat.ofDigits 10 m.reverse := by
  induction m generalizing acc with
  | nil => simp
  | cons d rest ih =>
      have hd : d < 10 := hm d (by simp)
      have hrest : ∀ x ∈ rest, x < 10 := fun x hx => hm x (by simp [hx])
      simp only [List.map_cons, List.foldl_cons, List.reverse_cons]
      rw [ih hrest, digitChr_toNat d hd]
      rw [Nat.ofDigits_append]
      simp [Nat.ofDigits]
      ring_nf

/-- Round trip of the modelled Python `str` / `int` on naturals. -/
lemma pyInt_pyStr (n : Nat) : pyInt (pyStr n) = some n := by
  by_cases h0 : n = 0
  · subst h0; decide
  · have hne : Nat.digits 10 n ≠ [] := Nat.digits_ne_nil_iff_ne_zero.mpr h0
    have hlt : ∀ d ∈ Nat.digits 10 n, d < 10 :=
      fun d hd => Nat.digits_lt_base (by norm_num) hd
    unfold pyStr pyInt
    simp only [h0, if_false, ite_false]
    have hnonnil : ((Nat.digits 10 n).map digitChr).reverse ≠ [] := by
      simp [hne]
    have hall : (((Nat.digits 10 n).map digitChr).reverse).all Char.isDigit = true := by
      rw [List.all_eq_true]
      intro c hc
      rw [List.mem_reverse, List.mem_map] at hc
      obtain ⟨d, hd, rfl⟩ := hc
      exact digitChr_isDigit d (hlt d hd)
    rw [if_pos ⟨hnonnil, hall⟩]
    congr 1
    rw [← List.map_reverse]
    rw [foldl_digits ((Nat.digits 10 n).reverse) (by simpa using hlt) 0]
    simp [Nat.ofDigits_digits]

/-- The decimal representation of a natural is never the empty string. -/
lemma pyStr_ne_empty (n : Nat) : pyStr n ≠ "" := by
  intro h
  have := pyInt_pyStr n
  rw [h] at this
  simp [pyInt] at this

/-- `hook_all` always leaves the fine-grained observers hooked. -/
lemma hook_all_hooked (st : CoreState) : (hook_all st).hooked = true := by
  unfold hook_all; split <;> simp_all

/-- `unhook_all` always leaves the fine-grained observers unhooked. -/
lemma unhook_all_hooked (st : CoreState) : (unhook_all st).hooked = false := by
  unfold unhook_all; split <;> simp_all

/-- `load_netnode` never touches the `_hooked` flag, on any of its paths. -/
lemma load_netnode_hooked (st : CoreState) (node : Netnode) :
    (load_netnode st node).1.hooked = st.hooked := by
  unfold load_netnode
  cases pyOrNone node.project with
  | none => rfl
  | some p =>
      simp only
      split
      · rfl
      · cases pyOrNone node.database with
        | none => rfl
        | some d =>
            simp only
            split
            · rfl
            · cases pyInt (pyOrStr node.tick "0") with
              | none => rfl
              | some t => rfl

/-- C1: in every reachable state of the document lifecycle (any initial
store, then any interleaving of ready-to-run, database-list reply delivery,
and document close), the fine-grained observers managed by `hook_all` /
`unhook_all` are hooked if and only if the session protocol is Joined
(a `JoinSession` request was dispatched and no `LeaveSession` since):
never over-hooked while not joined, never under-hooked while joined. -/
theorem hooked_iff_joined (env : Env) (s : SysState) (h : Reachable env s) :
    s.core.hooked = s.joined := by
  induction h with
  | init node => rfl
  | ready s accepted _ ih =>
      unfold applyReady
      cases hl : (load_netnode s.core s.node).2 with
      | some e =>
          simp only [hl]
          simpa [load_netnode_hooked] using ih
      | none =>
          simp only [hl]
          simpa [load_netnode_hooked] using ih
  | reply s names _ _ ih =>
      unfold applyReply databases_listed
      cases hd : s.core.database with
      | none => simpa using ih
      | some d =>
          by_cases hc : d ∈ names
          · simp [hc, hook_all_hooked]
          · simp [hc]
            exact ih
  | close s _ ih =>
      unfold applyClose closebase leave_session
      by_cases hg : (truthyS s.core.project && truthyS s.core.database) = true
      · simp [hg, unhook_all_hooked]
      · simp only [hg, Bool.false_eq_true, if_false, ite_false]
        simpa using ih

/-- Witness for C1: the invariant instantiated on a concrete reachable
state — ready, document close, then a late reply that dispatches a join. -/
theorem hooked_iff_joined_witness :
    ((applyReply ⟨"user", 5, 100⟩ ["fw.idb"]
        ((applyClose ⟨"user", 5, 100⟩
            ((applyReady true (initSys ⟨some "alpha", some "fw.idb", none⟩)).1)).1)).1).core.hooked =
    ((applyReply ⟨"user", 5, 100⟩ ["fw.idb"]
        ((applyClose ⟨"user", 5, 100⟩
            ((applyReady true (initSys ⟨some "alpha", some "fw.idb", none⟩)).1)).1)).1).joined :=
  hooked_iff_joined _ _
    (Reachable.reply _ _
      (Reachable.close _ (Reachable.ready _ true (Reachable.init _)))
      (by decide))

/-- C2 (code bug): with a Joined session on identity
{project: alpha, database: fw.idb, sequence: 7}, `closebase` does send the
leave request and does unhook the observers, but it does not clear the
identity: the `core.project = None` setter assigns `_project` and then its
assert raises `TypeError` on `None`, so `_database` stays `fw.idb`, `_tick`
stays 7, the store keeps all three keys, and a subsequent `load_netnode`
returns the old triple instead of the cleared one. -/
theorem closebase_leaves_identity_uncleared :
    (closebase ⟨"user", 5, 100⟩ ⟨some "alpha", some "fw.idb", 7, true⟩
        ⟨some "alpha", some "fw.idb", some "7"⟩) =
      (⟨none, some "fw.idb", 7, false⟩, ⟨some "alpha", some "fw.idb", some "7"⟩,
        [Packet.leaveSession "user"], some PyErr.typeError) ∧
    load_netnode initCore ⟨some "alpha", some "fw.idb", some "7"⟩ =
      (⟨some "alpha", some "fw.idb", 7, false⟩, none) := by
  have h7 : pyStr 7 = "7" := by simp [pyStr]; decide
  refine ⟨?_, by decide⟩
  simp [closebase, leave_session, save_netnode, unhook_all, truthyS, h7]

/-- C3 (counterexample): the save-then-load round trip fails as universally
stated. For the identity {project: a, database: b, sequence: 0} over a
store that holds a stale `tick` entry "5", `save_netnode` (which skips
falsy fields) followed by `load_netnode` succeeds but returns sequence 5,
not the 0 that was saved. -/
theorem save_load_roundtrip_cex :
    (load_netnode initCore
        (save_netnode ⟨some "a", some "b", 0, false⟩ ⟨none, none, some "5"⟩)).2 = none ∧
    (load_netnode initCore
        (save_netnode ⟨some "a", some "b", 0, false⟩ ⟨none, none, some "5"⟩)).1.tick = 5 ∧
    (⟨some "a", some "b", 0, false⟩ : CoreState).tick = 0 := by decide

/-- C3 (amended): for every identity whose project and database are present
(nonempty, free of ".."), and whose sequence is nonzero, `save_netnode`
followed immediately by `load_netnode` succeeds and returns the identical
{project, database, sequence} triple, over any prior store content. -/
theorem save_load_roundtrip_present (st st2 : CoreState) (node : Netnode) (p d : String)
    (hp : st.project = some p) (hpe : p ≠ "") (hpd : containsDotDot p = false)
    (hd : st.database = some d) (hde : d ≠ "") (hdd : containsDotDot d = false)
    (ht : st.tick ≠ 0) :
    load_netnode st2 (save_netnode st node) =
      ({ st2 with project := st.project, database := st.database, tick := st.tick }, none) := by
  simp [save_netnode, load_netnode, truthyS, pyOrNone, pyOrStr, hp, hd, hpe, hde,
    hpd, hdd, ht, pyStr_ne_empty, pyInt_pyStr]

/-- Witness for the amended C3: round trip of
{project: alpha, database: fw.idb, sequence: 7} over an empty store. -/
theorem save_load_roundtrip_present_witness :
    load_netnode initCore
        (save_netnode ⟨some "alpha", some "fw.idb", 7, false⟩ ⟨none, none, none⟩) =
      (⟨some "alpha", some "fw.idb", 7, false⟩, none) :=
  save_load_roundtrip_present _ initCore _ "alpha" "fw.idb" rfl (by decide) (by decide)
    rfl (by decide) (by decide) (by decide)

/-- C4 (code bug): loading a stored identity whose project contains ".."
does fail with the assert (`CorruptIdentity`) and keeps the value
unsanitized in the field — but loading a stored identity without any ".."
segment does not always succeed: on a store with the keys absent (every
fresh document), `load_netnode` raises `TypeError`, because
`assert ".." not in self._project` is evaluated on `None`. -/
theorem load_assert_fault_behavior :
    (load_netnode initCore ⟨none, none, none⟩).2 = some PyErr.typeError ∧
    (load_netnode initCore ⟨some "a..b", some "x", none⟩).2 = some PyErr.assertionError ∧
    (load_netnode initCore ⟨some "a..b", some "x", none⟩).1.project = some "a..b" := by decide

/-- C5: when project and database are present and the relay's database list
contains a name exactly equal to the bound database, the join path sends
the `ListDatabases` query and, on the reply, sends a `JoinSession` request
carrying the current sequence value unchanged together with the display
name, color, and cursor address, and afterwards the fine-grained observers
are hooked. -/
theorem join_match_sends_join_and_hooks (env : Env) (st : CoreState)
    (reply : List String) (p d : String)
    (hp : st.project = some p) (hpe : p ≠ "")
    (hd : st.database = some d) (hde : d ≠ "")
    (hin : d ∈ reply) :
    (join_session st true).1 = [Packet.listDatabasesQuery (some p)] ∧
    (databases_listed env reply st).2 =
      [Packet.joinSession (some p) (some d) st.tick env.name env.color env.ea] ∧
    (databases_listed env reply st).1.hooked = true := by
  simp [join_session, databases_listed, truthyS, hp, hd, hpe, hde, hin, hook_all_hooked]

/-- Witness for C5: Scenario A — identity
{project: alpha, database: fw.idb, sequence: 7} and reply
{fw.idb, other.idb}: join is sent with sequence 7 and observers hook. -/
theorem join_match_witness :
    (join_session ⟨some "alpha", some "fw.idb", 7, false⟩ true).1 =
      [Packet.listDatabasesQuery (some "alpha")] ∧
    (databases_listed ⟨"user", 5, 100⟩ ["fw.idb", "other.idb"]
        ⟨some "alpha", some "fw.idb", 7, false⟩).2 =
      [Packet.joinSession (some "alpha") (some "fw.idb") 7 "user" 5 100] ∧
    (databases_listed ⟨"user", 5, 100⟩ ["fw.idb", "other.idb"]
        ⟨some "alpha", some "fw.idb", 7, false⟩).1.hooked = true :=
  join_match_sends_join_and_hooks _ _ _ "alpha" "fw.idb" rfl (by decide) rfl
    (by decide) (by decide)

/-- C6: when the relay's database list contains no name equal (by exact,
case-sensitive string equality) to the bound database, the reply handler
sends no packet, hooks nothing, and leaves the whole system state unchanged
apart from the query no longer being outstanding — in particular the
session stays out of Joined. -/
theorem reply_no_match_no_effect (env : Env) (reply : List String) (s : SysState)
    (d : String) (hd : s.core.database = some d) (hnin : d ∉ reply) :
    applyReply env reply s = ({ s with pending := false }, []) := by
  simp [applyReply, databases_listed, hd, hnin]

/-- Witness for C6: Scenario B — database missing.idb against reply
{fw.idb}: nothing is sent, nothing hooks, the state only loses `pending`. -/
theorem reply_no_match_witness :
    applyReply ⟨"user", 5, 100⟩ ["fw.idb"]
        ⟨⟨some "alpha", some "missing.idb", 0, false⟩,
          ⟨some "alpha", some "missing.idb", none⟩, true, false⟩ =
      (⟨⟨some "alpha", some "missing.idb", 0, false⟩,
          ⟨some "alpha", some "missing.idb", none⟩, false, false⟩, []) :=
  reply_no_match_no_effect _ _ _ "missing.idb" rfl (by decide)

/-- C7 (code bug): a database-list reply arriving after `closebase` is not
a no-op. Because `closebase` faults at `core.project = None` before
clearing `_database`, the reply still matches the bound database, so the
handler sends a `JoinSession` request (with project `None`) and hooks all
fine-grained observers on the closed document. -/
theorem stale_reply_sends_join :
    (applyReply ⟨"user", 5, 100⟩ ["fw.idb"]
        ((applyClose ⟨"user", 5, 100⟩
            ((applyReady true (initSys ⟨some "alpha", some "fw.idb", none⟩)).1)).1)).2 =
      [Packet.joinSession none (some "fw.idb") 0 "user" 5 100] ∧
    ((applyReply ⟨"user", 5, 100⟩ ["fw.idb"]
        ((applyClose ⟨"user", 5, 100⟩
            ((applyReady true (initSys ⟨some "alpha", some "fw.idb", none⟩)).1)).1)).1).core.hooked
      = true := by decide

/-- C8: every fine-grained observer callback of the event translation layer
(`IDPHooks` / `IDBHooks` in `src/plugin/idaconnect/core.py`) maps its one
host notification to exactly one outbound event handed to the transport,
and then returns 0 to the host — no suppression, batching, or extra
events, for every notification kind and argument values. -/
theorem callback_one_event_returns_zero (get_cmt : Nat → Bool → String)
    (n : Notification) :
    (handleNotification get_cmt n).1.length = 1 ∧
    (handleNotification get_cmt n).2 = 0 := by
  cases n <;> exact ⟨rfl, rfl⟩

/-- C9: `save_netnode` never removes keys from the store: a field that is
absent/empty (project, database) or zero (sequence) at save time leaves
the previously stored value under its key unchanged, so saving a cleared
identity does not persist the clearing. -/
theorem save_skips_falsy_fields (st : CoreState) (node : Netnode) :
    (truthyS st.project = false → (save_netnode st node).project = node.project) ∧
    (truthyS st.database = false → (save_netnode st node).database = node.database) ∧
    (st.tick = 0 → (save_netnode st node).tick = node.tick) := by
  refine ⟨fun h => ?_, fun h => ?_, fun h => ?_⟩ <;>
    simp [save_netnode, h] <;> (repeat' split) <;> rfl

/-- Witness for C9: saving {project: absent, database: empty, sequence: 0}
over a store holding x / y / 3 leaves all three stored values in place. -/
theorem save_skips_falsy_fields_witness :
    (save_netnode ⟨none, some "", 0, false⟩ ⟨some "x", some "y", some "3"⟩).project
      = some "x" ∧
    (save_netnode ⟨none, some "", 0, false⟩ ⟨some "x", some "y", some "3"⟩).database
      = some "y" ∧
    (save_netnode ⟨none, some "", 0, false⟩ ⟨some "x", some "y", some "3"⟩).tick
      = some "3" :=
  ⟨(save_skips_falsy_fields ⟨none, some "", 0, false⟩ ⟨some "x", some "y", some "3"⟩).1
      (by decide),
   (save_skips_falsy_fields ⟨none, some "", 0, false⟩ ⟨some "x", some "y", some "3"⟩).2.1
      (by decide),
   (save_skips_falsy_fields ⟨none, some "", 0, false⟩ ⟨some "x", some "y", some "3"⟩).2.2
      rfl⟩

/-- C10: the project and database setters assign the new value to the
in-memory field before validating it: for an assigned value that is `None`
(the membership check itself faults) or contains "..", the setter raises
an error while the field already holds the new invalid value, and the
store is not saved. -/
theorem setter_assigns_before_validate (st : CoreState) (node : Netnode)
    (v : Option String)
    (h : v = none ∨ ∃ s, v = some s ∧ containsDotDot s = true) :
    ((∃ e, (set_project st node v).2.2 = Except.error e) ∧
      (set_project st node v).1.project = v ∧ (set_project st node v).2.1 = node) ∧
    ((∃ e, (set_database st node v).2.2 = Except.error e) ∧
      (set_database st node v).1.database = v ∧ (set_database st node v).2.1 = node) := by
  rcases h with rfl | ⟨s, rfl, hs⟩
  · simp [set_project, set_database]
  · simp [set_project, set_database, hs]

/-- Witness for C10: assigning the value a..b errors in both setters while
the respective field already holds a..b and the store stays untouched. -/
theorem setter_assigns_before_validate_witness :
    ((∃ e, (set_project initCore ⟨none, none, none⟩ (some "a..b")).2.2 = Except.error e) ∧
      (set_project initCore ⟨none, none, none⟩ (some "a..b")).1.project = some "a..b" ∧
      (set_project initCore ⟨none, none, none⟩ (some "a..b")).2.1 = ⟨none, none, none⟩) ∧
    ((∃ e, (set_database initCore ⟨none, none, none⟩ (some "a..b")).2.2 = Except.error e) ∧
      (set_database initCore ⟨none, none, none⟩ (some "a..b")).1.database = some "a..b" ∧
      (set_database initCore ⟨none, none, none⟩ (some "a..b")).2.1 = ⟨none, none, none⟩) :=
  setter_assigns_before_validate _ _ _ (Or.inr ⟨"a..b", rfl, by decide⟩)

end IDArling
